import Mathlib

/-
Verification of the Torre de Hanoi 3D puzzle core against its specification.

The definitions below are a shallow embedding of the puzzle state machine of
src/js/Game.js and src/js/utils.js: the Disk/Tower data model, the move
validator, the game-mode initial layouts (including the random pre-scrambled
puzzle distribution), the recursive solution generator, the automated playback
move executor, and the drag-and-drop resolution.  Presentation concerns
(meshes, materials, sounds, DOM, timers as real time) are out of scope; the
embedding keeps exactly the model-state effects of each source function.
JavaScript numbers that are only ever integers in the source are modelled as
Nat; 3D coordinates are modelled as exact integer triples and Euclidean
distances are compared in squared form (a strictly monotone transform on
nonnegative reals, so every comparison in the source is preserved exactly).
-/

/-- A disk; the source `Disk` class carries size plus purely visual data
(mesh, theme, colour).  Only `size` is model state. -/
structure Disk where
  size : Nat
deriving DecidableEq, Repr

/-- A tower; the source `Tower` class stores its stack in the array
`this.disks`, index 0 = bottom, last = top.  The visual fields (meshes,
decorations, theme) are not model state. -/
structure Tower where
  disks : List Disk
deriving DecidableEq, Repr

namespace Tower

/-- `Tower.getTopDisk` (Game.js:2191): the last element of `disks`,
or null when empty. -/
def getTopDisk (t : Tower) : Option Disk :=
  t.disks.getLast?

/-- `Tower.removeDisk` (Game.js:2177): pops the top disk and returns it;
returns null and leaves the tower unchanged when empty.  The pair holds
(state after, returned disk). -/
def removeDisk (t : Tower) : Tower × Option Disk :=
  match t.disks.getLast? with
  | none => (t, none)
  | some disk => (⟨t.disks.dropLast⟩, some disk)

/-- `Tower.addDisk` (Game.js:2155): appends the disk at the top,
unconditionally — the source performs no size check here. -/
def addDisk (t : Tower) (disk : Disk) : Tower :=
  ⟨t.disks ++ [disk]⟩

/-- `Tower.canAddDisk` (Game.js:2204): true when the tower is empty or the
disk is strictly smaller than the current top disk. -/
def canAddDisk (t : Tower) (disk : Disk) : Bool :=
  match t.getTopDisk with
  | none => true
  | some topDisk => disk.size < topDisk.size

/-- `Tower.isComplete` (Game.js:2265): the length must equal `totalDisks` and
the disk at bottom-up index i must have size `totalDisks - i`.  The source
returns false as soon as either check fails; the `&&`/`all` form below is the
same function. -/
def isComplete (t : Tower) (totalDisks : Nat) : Bool :=
  (t.disks.length == totalDisks) &&
    (List.range totalDisks).all fun i => (t.disks.getD i ⟨0⟩).size == totalDisks - i

end Tower

/-- `calculateMinMoves` (utils.js:54): `Math.pow(2, numDisks) - 1`, exact on
the integer range in play. -/
def calculateMinMoves (numDisks : Nat) : Nat :=
  2 ^ numDisks - 1

/-- The invariant named by the spec: the disk sequence of a tower is strictly
decreasing in size from bottom (index 0) to top
(`disks[i].size > disks[i+1].size` for every valid i). -/
abbrev Descending (t : Tower) : Prop :=
  List.Chain' (fun a b => a.size > b.size) t.disks

lemma tower_eq_of_disks {a b : Tower} (h : a.disks = b.disks) : a = b := by
  cases a
  cases b
  cases h
  rfl

lemma descending_removeDisk {t : Tower} (h : Descending t) :
    Descending (t.removeDisk).1 := by
  unfold Tower.removeDisk
  cases hl : t.disks.getLast? with
  | none => exact h
  | some d => exact h.init

lemma descending_addDisk {t : Tower} {d : Disk} (h : Descending t)
    (hc : t.canAddDisk d = true) : Descending (t.addDisk d) := by
  show List.Chain' (fun a b => a.size > b.size) (t.disks ++ [d])
  refine List.Chain'.append h (List.chain'_singleton d) ?_
  intro x hx y hy
  rw [Option.mem_def] at hx hy
  simp only [List.head?_cons, Option.some.injEq] at hy
  subst hy
  unfold Tower.canAddDisk Tower.getTopDisk at hc
  rw [hx] at hc
  exact of_decide_eq_true hc

/-- The four game modes of Game.js:27 (`'normal'`, `'contrarreloj'`,
`'desafio'`, `'puzzle'`). -/
inductive GameMode where
  | normal
  | contrarreloj
  | desafio
  | puzzle
deriving DecidableEq, Repr

/-- A 3D point.  The source uses floating-point `THREE.Vector3`; the
embedding uses exact integer coordinates (every position the claims touch is
integral, and the drop-resolution theorems are parametric in the resolved
target). -/
abbrev Pos := ℤ × ℤ × ℤ

/-- Squared Euclidean distance.  The source compares true Euclidean distances
(`position.distanceTo`, Game.js:756) with `<`; squaring both sides of every
such comparison preserves it exactly, so the model works with squared
distances and the squared threshold 8² = 64 throughout. -/
def distSq (p q : Pos) : ℤ :=
  (p.1 - q.1) * (p.1 - q.1) + (p.2.1 - q.2.1) * (p.2.1 - q.2.1) +
    (p.2.2 - q.2.2) * (p.2.2 - q.2.2)

/-- The dragged disk during an interaction: the source keeps
`this.draggingDisk` (a `Disk` whose `currentTower` names its origin tower and
whose `mesh.position` is its transient position).  Tower object references are
embedded as indices, which is faithful because the three `Tower` objects are
distinct for the session's lifetime. -/
structure DragInfo where
  disk : Disk
  currentTower : Fin 3
  meshPos : Pos
deriving DecidableEq, Repr

/-- The model state owned by the `Game` class: the three towers
(Game.js:253 creates exactly 3), the move counter, the timer value, the
terminal flag and the drag state.  Rendering, sound, DOM and interval handles
are not model state. -/
structure Game where
  numDisks : Nat
  gameMode : GameMode
  towers : Fin 3 → Tower
  towerPositions : Fin 3 → Pos
  moves : Nat
  timer : Nat
  isGameOver : Bool
  draggingDisk : Option DragInfo

/-- The disk list built by the creation loop of `createDisks` (Game.js:442):
disk i has size `numDisks - i`, so the list is `[n, n-1, ..., 1]`. -/
def sessionDisks (numDisks : Nat) : List Disk :=
  (List.range numDisks).map fun i => ⟨numDisks - i⟩

/-- Towers after `clearDisks` (Game.js:421): all three empty. -/
def emptyTowers : Fin 3 → Tower := fun _ => ⟨[]⟩

/-- The state of the `createPuzzleConfiguration` loop (Game.js:465):
the not-yet-placed disks and the towers built so far.  `availableDisks`
starts as the created disks sorted by size descending; `sessionDisks` is
already in that order, so the source's sort leaves it unchanged. -/
structure PuzzleState where
  availableDisks : List Disk
  towers : Fin 3 → Tower

/-- The `validDisks` local of the `createPuzzleConfiguration` loop body
(Game.js:479): the not-yet-placed disks that may go on the drawn tower.  Its
filter condition `tower.disks.length === 0 || disk.size <
tower.getTopDisk().size` is the function `Tower.canAddDisk`. -/
def validDisksOf (s : PuzzleState) (towerIndex : Fin 3) : List Disk :=
  s.availableDisks.filter fun disk => (s.towers towerIndex).canAddDisk disk

/-- The iteration's `selectedDisk` local (Game.js:486): the valid disk at the
drawn index; the default of `getD` is never reached (the index is taken mod
the length, and the branch requires the list nonempty). -/
def selectedDiskOf (s : PuzzleState) (choice : Fin 3 × Nat) : Disk :=
  (validDisksOf s choice.1).getD (choice.2 % (validDisksOf s choice.1).length) ⟨0⟩

/-- One iteration of the `createPuzzleConfiguration` while-loop
(Game.js:474–494), parametrised by the iteration's two random draws: the
tower index (`Math.floor(Math.random() * 3)`) and the disk draw, embedded as
an arbitrary Nat reduced mod the valid-disk count
(`Math.floor(Math.random() * validDisks.length)` is exactly a value in that
range).  The source removes the selected disk by object identity
(`disk !== selectedDisk`); disk sizes in a session are pairwise distinct, so
removal by value is the same.  When no disk fits the drawn tower the
iteration places nothing. -/
def puzzleStep (s : PuzzleState) (choice : Fin 3 × Nat) : PuzzleState :=
  if 0 < (validDisksOf s choice.1).length then
    { availableDisks := s.availableDisks.filter fun disk => disk != selectedDiskOf s choice
      towers := Function.update s.towers choice.1
        ((s.towers choice.1).addDisk (selectedDiskOf s choice)) }
  else s

/-- `createPuzzleConfiguration`'s loop run for `fuel` iterations with the
given stream of random draws.  The source loops until `availableDisks` is
empty; once that holds every further `puzzleStep` is the identity, so the
fuel-indexed run agrees with the source whenever the run has emptied
`availableDisks`, and lets the loop's non-termination be stated. -/
def runPuzzle (choices : Nat → Fin 3 × Nat) : Nat → PuzzleState → PuzzleState
  | 0, s => s
  | k + 1, s => puzzleStep (runPuzzle choices k s) (choices k)

/-- `createDisks` (Game.js:440): create the disks `[n, ..., 1]`, then either
run the puzzle distribution (puzzle mode) or push them all onto tower 0
(normal, contrarreloj and desafío modes).  `choices` and `fuel` drive the
puzzle mode's random loop and are ignored otherwise. -/
def createDisks (numDisks : Nat) (mode : GameMode) (choices : Nat → Fin 3 × Nat)
    (fuel : Nat) : Fin 3 → Tower :=
  match mode with
  | GameMode.puzzle => (runPuzzle choices fuel ⟨sessionDisks numDisks, emptyTowers⟩).towers
  | _ => Function.update emptyTowers 0 ((sessionDisks numDisks).foldl Tower.addDisk ⟨[]⟩)

/-- `checkWinCondition` (Game.js:788): when tower 2 is complete the game ends
in victory (`gameOver(true)` sets `isGameOver`; its other effects are
presentation and score persistence). -/
def checkWinCondition (g : Game) : Game :=
  if (g.towers 2).isComplete g.numDisks then { g with isGameOver := true } else g

/-- `findClosestTower` (Game.js:751): scan the towers in order keeping the
strictly closest one (`none` plays the role of the initial
`minDistance = Infinity`), then return it only if its distance is below the
threshold (8 as a true distance, 64 squared). -/
def findClosestTower (g : Game) (position : Pos) : Option (Fin 3) :=
  let scan := ([0, 1, 2] : List (Fin 3)).foldl
    (fun (acc : Option (Fin 3) × Option ℤ) i =>
      let distance := distSq position (g.towerPositions i)
      match acc.2 with
      | none => (some i, some distance)
      | some minDistance =>
          if distance < minDistance then (some i, some distance) else acc)
    (none, none)
  match scan with
  | (closestTower, some minDistance) => if minDistance < 64 then closestTower else none
  | (_, none) => none

/-- `dropDisk` (Game.js:689).  When a drag is active: resolve the closest
tower; when one exists, is not the origin tower and accepts the disk, pop the
origin's top disk, append the dragged disk to the target, increment the move
counter and run the win check; in every other case the model state is
untouched (the source only animates the disk back).  The drag always ends.
The source's local mutations (`sourceTower.removeDisk()` then
`closestTower.addDisk(...)`) are embedded as two sequenced function updates,
which reproduces the source's object aliasing exactly. -/
def dropDisk (g : Game) : Game :=
  match g.draggingDisk with
  | none => g
  | some dragging =>
    match findClosestTower g dragging.meshPos with
    | some closestTower =>
      if closestTower ≠ dragging.currentTower ∧
          (g.towers closestTower).canAddDisk dragging.disk = true then
        checkWinCondition
          { g with
              towers := Function.update
                (Function.update g.towers dragging.currentTower
                  ((g.towers dragging.currentTower).removeDisk).1)
                closestTower
                ((Function.update g.towers dragging.currentTower
                    ((g.towers dragging.currentTower).removeDisk).1 closestTower).addDisk
                  dragging.disk)
              moves := g.moves + 1
              draggingDisk := none }
      else { g with draggingDisk := none }
    | none => { g with draggingDisk := none }

/-- The observable notifications `executeAutoMove` can emit.  The source
emits a UI update and a move sound on an applied move; the spec's error
taxonomy names an `InvariantViolation` report, which is part of the
vocabulary here so that its absence is statable — no source path produces
it. -/
inductive PlaybackEvent where
  | uiUpdated
  | moveSoundPlayed
  | invariantViolationReported
deriving DecidableEq, Repr

/-- `executeAutoMove` (Game.js:919): take the source tower's top disk; if it
exists and the target accepts it, pop it from the source, append it to the
target and increment the move counter (emitting the UI update and the move
sound); otherwise do nothing at all — no state change and no notification.
The source's two local tower references with sequenced mutation are embedded
as two sequenced function updates, as in `dropDisk`. -/
def executeAutoMove (g : Game) (fromTowerIndex toTowerIndex : Fin 3) :
    Game × List PlaybackEvent :=
  match (g.towers fromTowerIndex).getTopDisk with
  | none => (g, [])
  | some disk =>
    if (g.towers toTowerIndex).canAddDisk disk = true then
      ({ g with
          towers := Function.update
            (Function.update g.towers fromTowerIndex ((g.towers fromTowerIndex).removeDisk).1)
            toTowerIndex
            ((Function.update g.towers fromTowerIndex ((g.towers fromTowerIndex).removeDisk).1
                toTowerIndex).addDisk disk)
          moves := g.moves + 1 },
        [PlaybackEvent.uiUpdated, PlaybackEvent.moveSoundPlayed])
    else (g, [])

/-- A generated solution step, the source's literal `{ fromTower, toTower }`
(Game.js:900); the spec calls it MoveRecord.  The indices a caller passes are
the tower indices 0..2. -/
structure MoveRecord where
  fromTower : Fin 3
  toTower : Fin 3
deriving DecidableEq, Repr

/-- `generateHanoiSolution` (Game.js:897), accumulator style: the returned
list is `steps` with the generated moves pushed at the end.  For n ≥ 2 the
source recurses on n−1 around the middle move; the base case n = 1 pushes a
single move.  The source recurses forever for n = 0 (the guard is
`n === 1`); no caller passes 0, and the n = 0 equation below is an arbitrary
total completion that no theorem relies on. -/
def generateHanoiSolution : Nat → Fin 3 → Fin 3 → Fin 3 → List MoveRecord → List MoveRecord
  | 0, _, _, _, steps => steps
  | 1, fromTower, toTower, _, steps => steps ++ [⟨fromTower, toTower⟩]
  | n + 2, fromTower, toTower, auxTower, steps =>
      generateHanoiSolution (n + 1) auxTower toTower fromTower
        (generateHanoiSolution (n + 1) fromTower auxTower toTower steps ++
          [⟨fromTower, toTower⟩])

/-- `resetForSolution` (Game.js:869): stop the timer, clear the disks, zero
the counters, clear the terminal flag and rebuild the disks with
`createDisks` — which in puzzle mode runs the random puzzle distribution
again (`choices` and `fuel` drive it, and are ignored in the other
modes). -/
def resetForSolution (g : Game) (choices : Nat → Fin 3 × Nat) (fuel : Nat) : Game :=
  { g with
      towers := createDisks g.numDisks g.gameMode choices fuel
      moves := 0
      timer := 0
      isGameOver := false
      draggingDisk := none }

/-- The playback of `showSolution` (Game.js:828): the generated steps
`generateHanoiSolution(numDisks, 0, 2, 1, [])` applied in order through
`executeAutoMove`. -/
def runSolution (g : Game) : Game :=
  (generateHanoiSolution g.numDisks 0 2 1 []).foldl
    (fun s step => (executeAutoMove s step.fromTower step.toTower).1) g

/-- Modelled from the spec: the "canonical start" — all disks stacked on
tower 0 in descending size order, towers 1 and 2 empty.  Stated for
comparison with what the source's reset actually produces. -/
def canonicalLayout (numDisks : Nat) : Fin 3 → Tower :=
  fun i => if i = 0 then ⟨sessionDisks numDisks⟩ else ⟨[]⟩

/-- The tower positions of `createTowers` (Game.js:254): x = −10, 0, 10. -/
def towerPositionsDefault : Fin 3 → Pos :=
  fun i => if i = 0 then (-10, 0, 0) else if i = 1 then (0, 0, 0) else (10, 0, 0)

/-- A fresh normal-mode session on `numDisks` disks, as `resetGame` leaves it:
canonical layout, zero counters, no drag, not over. -/
def canonicalGame (numDisks : Nat) : Game :=
  { numDisks := numDisks
    gameMode := GameMode.normal
    towers := createDisks numDisks GameMode.normal (fun _ => (0, 0)) 0
    towerPositions := towerPositionsDefault
    moves := 0
    timer := 0
    isGameOver := false
    draggingDisk := none }


/- Helper lemmas shared by the claim theorems. -/

lemma canAddDisk_top_self {t : Tower} {d : Disk} (h : t.getTopDisk = some d) :
    t.canAddDisk d = false := by
  unfold Tower.canAddDisk
  rw [h]
  simp

lemma removeDisk_disks_of_top {t : Tower} {d : Disk} (h : t.getTopDisk = some d) :
    ((t.removeDisk).1).disks = t.disks.dropLast := by
  unfold Tower.getTopDisk at h
  unfold Tower.removeDisk
  rw [h]

lemma checkWinCondition_towers (g : Game) : (checkWinCondition g).towers = g.towers := by
  unfold checkWinCondition
  split <;> rfl

lemma checkWinCondition_moves (g : Game) : (checkWinCondition g).moves = g.moves := by
  unfold checkWinCondition
  split <;> rfl

lemma dropDisk_no_drag {g : Game} (h : g.draggingDisk = none) : dropDisk g = g := by
  unfold dropDisk
  rw [h]

lemma dropDisk_eq_of_drag {g : Game} {dragging : DragInfo}
    (h : g.draggingDisk = some dragging) :
    dropDisk g =
      match findClosestTower g dragging.meshPos with
      | some closestTower =>
        if closestTower ≠ dragging.currentTower ∧
            (g.towers closestTower).canAddDisk dragging.disk = true then
          checkWinCondition
            { g with
                towers := Function.update
                  (Function.update g.towers dragging.currentTower
                    ((g.towers dragging.currentTower).removeDisk).1)
                  closestTower
                  ((Function.update g.towers dragging.currentTower
                      ((g.towers dragging.currentTower).removeDisk).1 closestTower).addDisk
                    dragging.disk)
                moves := g.moves + 1
                draggingDisk := none }
        else { g with draggingDisk := none }
      | none => { g with draggingDisk := none } := by
  unfold dropDisk
  rw [h]

lemma dropDisk_none_target {g : Game} {dragging : DragInfo}
    (hdrag : g.draggingDisk = some dragging)
    (hres : findClosestTower g dragging.meshPos = none) :
    dropDisk g = { g with draggingDisk := none } := by
  rw [dropDisk_eq_of_drag hdrag, hres]

lemma dropDisk_some_target {g : Game} {dragging : DragInfo} {ct : Fin 3}
    (hdrag : g.draggingDisk = some dragging)
    (hres : findClosestTower g dragging.meshPos = some ct) :
    dropDisk g =
      if ct ≠ dragging.currentTower ∧ (g.towers ct).canAddDisk dragging.disk = true then
        checkWinCondition
          { g with
              towers := Function.update
                (Function.update g.towers dragging.currentTower
                  ((g.towers dragging.currentTower).removeDisk).1)
                ct
                ((Function.update g.towers dragging.currentTower
                    ((g.towers dragging.currentTower).removeDisk).1 ct).addDisk dragging.disk)
              moves := g.moves + 1
              draggingDisk := none }
      else { g with draggingDisk := none } := by
  rw [dropDisk_eq_of_drag hdrag, hres]

lemma executeAutoMove_skip_empty {g : Game} {f t : Fin 3}
    (h : (g.towers f).getTopDisk = none) : executeAutoMove g f t = (g, []) := by
  unfold executeAutoMove
  rw [h]

lemma executeAutoMove_skip_blocked {g : Game} {f t : Fin 3} {d : Disk}
    (hd : (g.towers f).getTopDisk = some d)
    (hc : (g.towers t).canAddDisk d = false) : executeAutoMove g f t = (g, []) := by
  unfold executeAutoMove
  rw [hd]
  show (if (g.towers t).canAddDisk d = true then _ else (g, [])) = (g, [])
  rw [hc]
  rfl

lemma executeAutoMove_applied_eq {g : Game} {f t : Fin 3} {d : Disk}
    (hd : (g.towers f).getTopDisk = some d)
    (hc : (g.towers t).canAddDisk d = true) :
    executeAutoMove g f t =
      ({ g with
          towers := Function.update
            (Function.update g.towers f ((g.towers f).removeDisk).1) t
            ((Function.update g.towers f ((g.towers f).removeDisk).1 t).addDisk d)
          moves := g.moves + 1 },
        [PlaybackEvent.uiUpdated, PlaybackEvent.moveSoundPlayed]) := by
  unfold executeAutoMove
  rw [hd]
  show (if (g.towers t).canAddDisk d = true then _ else (g, [])) = _
  rw [hc]
  rfl

lemma executeAutoMove_applied {g : Game} {f t : Fin 3} {d : Disk}
    (hd : (g.towers f).getTopDisk = some d)
    (hc : (g.towers t).canAddDisk d = true) :
    (executeAutoMove g f t).1.moves = g.moves + 1
    ∧ ((executeAutoMove g f t).1.towers f).disks = (g.towers f).disks.dropLast
    ∧ ((executeAutoMove g f t).1.towers t).disks = (g.towers t).disks ++ [d]
    ∧ ∀ i, i ≠ f → i ≠ t → (executeAutoMove g f t).1.towers i = g.towers i := by
  have hft : f ≠ t := by
    intro he
    rw [← he, canAddDisk_top_self hd] at hc
    exact Bool.false_ne_true hc
  rw [executeAutoMove_applied_eq hd hc]
  refine ⟨rfl, ?_, ?_, ?_⟩
  · show ((Function.update (Function.update g.towers f ((g.towers f).removeDisk).1) t
        ((Function.update g.towers f ((g.towers f).removeDisk).1 t).addDisk d)) f).disks
      = (g.towers f).disks.dropLast
    rw [Function.update_noteq hft, Function.update_same]
    exact removeDisk_disks_of_top hd
  · show ((Function.update (Function.update g.towers f ((g.towers f).removeDisk).1) t
        ((Function.update g.towers f ((g.towers f).removeDisk).1 t).addDisk d)) t).disks
      = (g.towers t).disks ++ [d]
    rw [Function.update_same]
    show ((Function.update g.towers f ((g.towers f).removeDisk).1 t).addDisk d).disks
      = (g.towers t).disks ++ [d]
    rw [Function.update_noteq (Ne.symm hft)]
    rfl
  · intro i hif hit
    show Function.update (Function.update g.towers f ((g.towers f).removeDisk).1) t
        ((Function.update g.towers f ((g.towers f).removeDisk).1 t).addDisk d) i = g.towers i
    rw [Function.update_noteq hit, Function.update_noteq hif]

lemma foldl_addDisk_disks :
    ∀ (l : List Disk) (t : Tower), (l.foldl Tower.addDisk t).disks = t.disks ++ l := by
  intro l
  induction l with
  | nil => intro t; simp
  | cons d rest ih =>
    intro t
    rw [List.foldl_cons, ih]
    simp [Tower.addDisk]

lemma descending_sessionDisks (n : Nat) :
    List.Chain' (fun a b => a.size > b.size) (sessionDisks n) := by
  unfold sessionDisks
  rw [List.chain'_map]
  cases n with
  | zero => simp
  | succ m =>
    rw [List.chain'_range_succ]
    intro i hi
    show m + 1 - i > m + 1 - (i + 1)
    omega

lemma selectedDiskOf_mem {s : PuzzleState} {choice : Fin 3 × Nat}
    (h : 0 < (validDisksOf s choice.1).length) :
    selectedDiskOf s choice ∈ validDisksOf s choice.1 := by
  unfold selectedDiskOf
  have hlt : choice.2 % (validDisksOf s choice.1).length < (validDisksOf s choice.1).length :=
    Nat.mod_lt _ h
  rw [List.getD_eq_getElem _ _ hlt]
  exact List.getElem_mem hlt

lemma puzzleStep_descending {s : PuzzleState} (choice : Fin 3 × Nat)
    (h : ∀ i, Descending (s.towers i)) :
    ∀ i, Descending ((puzzleStep s choice).towers i) := by
  intro i
  unfold puzzleStep
  split
  · rename_i hv
    show Descending
      (Function.update s.towers choice.1
        ((s.towers choice.1).addDisk (selectedDiskOf s choice)) i)
    by_cases hi : i = choice.1
    · rw [hi, Function.update_same]
      exact descending_addDisk (h choice.1) (List.of_mem_filter (selectedDiskOf_mem hv))
    · rw [Function.update_noteq hi]
      exact h i
  · exact h i

lemma runPuzzle_descending (choices : Nat → Fin 3 × Nat) :
    ∀ (k : Nat) (s : PuzzleState), (∀ i, Descending (s.towers i)) →
      ∀ i, Descending ((runPuzzle choices k s).towers i)
  | 0, _, h => h
  | k + 1, s, h => puzzleStep_descending (choices k) (runPuzzle_descending choices k s h)

lemma createDisks_descending (numDisks : Nat) (mode : GameMode)
    (choices : Nat → Fin 3 × Nat) (fuel : Nat) :
    ∀ i, Descending (createDisks numDisks mode choices fuel i) := by
  intro i
  cases mode
  case puzzle =>
    exact runPuzzle_descending choices fuel _ (fun _ => List.chain'_nil) i
  all_goals {
    show Descending (Function.update emptyTowers 0 _ i)
    by_cases hi : i = 0
    · subst hi
      rw [Function.update_same]
      show List.Chain' _ ((sessionDisks numDisks).foldl Tower.addDisk ⟨[]⟩).disks
      rw [foldl_addDisk_disks]
      exact descending_sessionDisks numDisks
    · rw [Function.update_noteq hi]
      exact List.chain'_nil
  }

lemma update_move_descending {ts : Fin 3 → Tower} {src dst : Fin 3} {d : Disk}
    (h : ∀ i, Descending (ts i)) (hne : dst ≠ src)
    (hc : (ts dst).canAddDisk d = true) :
    ∀ i, Descending
      (Function.update (Function.update ts src ((ts src).removeDisk).1) dst
        ((Function.update ts src ((ts src).removeDisk).1 dst).addDisk d) i) := by
  intro i
  by_cases hid : i = dst
  · subst hid
    rw [Function.update_same, Function.update_noteq hne]
    exact descending_addDisk (h i) hc
  · rw [Function.update_noteq hid]
    by_cases his : i = src
    · subst his
      rw [Function.update_same]
      exact descending_removeDisk (h i)
    · rw [Function.update_noteq his]
      exact h i

lemma generateHanoiSolution_length :
    ∀ (n : Nat) (f t a : Fin 3) (steps : List MoveRecord),
      (generateHanoiSolution (n + 1) f t a steps).length = steps.length + (2 ^ (n + 1) - 1) := by
  intro n
  induction n with
  | zero =>
    intro f t a steps
    simp [generateHanoiSolution]
  | succ m ih =>
    intro f t a steps
    show (generateHanoiSolution (m + 1 + 1) f t a steps).length = _
    rw [show generateHanoiSolution (m + 1 + 1) f t a steps
        = generateHanoiSolution (m + 1) a t f
            (generateHanoiSolution (m + 1) f a t steps ++ [⟨f, t⟩]) from rfl]
    rw [ih, List.length_append, ih]
    have h1 : 0 < 2 ^ (m + 1) := pow_pos (by norm_num) _
    have h2 : 2 ^ (m + 1 + 1) = 2 ^ (m + 1) + 2 ^ (m + 1) := by
      rw [pow_succ, mul_two]
    simp only [List.length_singleton]
    omega

/- The claim theorems. -/

/-- C2: for every n from 1 to 7, `generateHanoiSolution(n, from, to, aux,
steps)` with an empty steps list and distinct tower indices appends exactly
2^n − 1 moves to steps, and this count equals `calculateMinMoves(n)`. -/
theorem c2_generateHanoiSolution_count :
    ∀ (n : Nat) (f t a : Fin 3), 1 ≤ n → n ≤ 7 → f ≠ t → f ≠ a → t ≠ a →
      (generateHanoiSolution n f t a []).length = 2 ^ n - 1
      ∧ calculateMinMoves n = 2 ^ n - 1 := by
  intro n f t a h1 h7 hft hfa hta
  obtain ⟨m, rfl⟩ : ∃ m, n = m + 1 := ⟨n - 1, by omega⟩
  refine ⟨?_, rfl⟩
  rw [generateHanoiSolution_length]
  simp

/-- Witness for C2 at n = 3, towers (0, 2, 1). -/
theorem c2_generateHanoiSolution_count_witness :
    (generateHanoiSolution 3 0 2 1 []).length = 2 ^ 3 - 1
    ∧ calculateMinMoves 3 = 2 ^ 3 - 1 :=
  c2_generateHanoiSolution_count 3 0 2 1 (by norm_num) (by norm_num)
    (by decide) (by decide) (by decide)

/-- C7 counterexample: `Tower.addDisk` performs no defensive check at all —
pushing a size-5 disk onto a tower whose top has size 1 is rejected by
`canAddDisk`, yet `addDisk` appends it anyway and signals nothing. -/
theorem c7_addDisk_counterexample :
    Tower.canAddDisk ⟨[⟨1⟩]⟩ ⟨5⟩ = false
    ∧ (Tower.addDisk ⟨[⟨1⟩]⟩ ⟨5⟩).disks = [⟨1⟩, ⟨5⟩] :=
  ⟨rfl, rfl⟩

/-- C7 as amended: `Tower.addDisk` never fails and performs no size check; it
unconditionally appends the disk to the top of the tower's sequence (the
descending invariant is kept only because every caller gates placements with
`canAddDisk` first). -/
theorem c7_addDisk_unconditional_append :
    ∀ (t : Tower) (d : Disk), (t.addDisk d).disks = t.disks ++ [d] :=
  fun _ _ => rfl

/-- C8 counterexample: a tower holding sizes [3, 1] bottom-to-top has exactly
2 disks in strictly descending order, yet `isComplete(tower, 2)` is false —
the source checks for the exact solved stack `[expectedCount, ..., 1]`, not
mere descent. -/
theorem c8_isComplete_counterexample :
    (Tower.mk [⟨3⟩, ⟨1⟩]).disks.length = 2
    ∧ Descending ⟨[⟨3⟩, ⟨1⟩]⟩
    ∧ Tower.isComplete ⟨[⟨3⟩, ⟨1⟩]⟩ 2 = false := by
  refine ⟨rfl, ?_, rfl⟩
  exact List.chain'_pair.mpr (by norm_num)

/-- C8 as amended: `isComplete(tower, expectedCount)` is true iff the tower
holds exactly `expectedCount` disks and the disk at bottom-up index i has
size `expectedCount - i` — i.e. the tower is exactly the solved stack
`[expectedCount, ..., 1]`, strictly stronger than descending order. -/
theorem c8_isComplete_exact_stack :
    ∀ (t : Tower) (expectedCount : Nat),
      t.isComplete expectedCount = true ↔
        (t.disks.length = expectedCount
          ∧ ∀ i, i < expectedCount → (t.disks.getD i ⟨0⟩).size = expectedCount - i) := by
  intro t c
  unfold Tower.isComplete
  rw [Bool.and_eq_true]
  simp only [beq_iff_eq, List.all_eq_true, List.mem_range]

/-- C10: `executeAutoMove` is atomic on rejection — with an empty source
tower, or a target that cannot accept the source's top disk, the whole
session state is unchanged (and nothing is emitted); an accepted move pops
exactly the source's top disk, appends it to the target, leaves every other
tower untouched, and increments the move counter by exactly 1. -/
theorem c10_executeAutoMove_atomic :
    ∀ (g : Game) (fromTowerIndex toTowerIndex : Fin 3),
      ((g.towers fromTowerIndex).getTopDisk = none →
        executeAutoMove g fromTowerIndex toTowerIndex = (g, []))
      ∧ (∀ d, (g.towers fromTowerIndex).getTopDisk = some d →
          (g.towers toTowerIndex).canAddDisk d = false →
          executeAutoMove g fromTowerIndex toTowerIndex = (g, []))
      ∧ (∀ d, (g.towers fromTowerIndex).getTopDisk = some d →
          (g.towers toTowerIndex).canAddDisk d = true →
          (executeAutoMove g fromTowerIndex toTowerIndex).1.moves = g.moves + 1
          ∧ ((executeAutoMove g fromTowerIndex toTowerIndex).1.towers fromTowerIndex).disks
              = (g.towers fromTowerIndex).disks.dropLast
          ∧ ((executeAutoMove g fromTowerIndex toTowerIndex).1.towers toTowerIndex).disks
              = (g.towers toTowerIndex).disks ++ [d]
          ∧ ∀ i, i ≠ fromTowerIndex → i ≠ toTowerIndex →
              (executeAutoMove g fromTowerIndex toTowerIndex).1.towers i = g.towers i) :=
  fun _ _ _ =>
    ⟨fun h => executeAutoMove_skip_empty h,
     fun _ hd hc => executeAutoMove_skip_blocked hd hc,
     fun _ hd hc => executeAutoMove_applied hd hc⟩

/-- Witness for C10: the rejection case at a concrete session (source tower 2
of a fresh 3-disk game is empty, so the state is returned unchanged). -/
theorem c10_executeAutoMove_atomic_witness :
    executeAutoMove (canonicalGame 3) 2 0 = (canonicalGame 3, []) :=
  (c10_executeAutoMove_atomic (canonicalGame 3) 2 0).1 rfl

/-- C5 counterexample: a scheduled playback move whose source tower is empty
(tower 1 of a fresh 3-disk game) is rejected by the validator, and
`executeAutoMove` skips it silently — the state is returned unchanged and the
emitted notification list is empty; in particular no `InvariantViolation`
report of any kind is produced, contrary to the claim. -/
theorem c5_silent_skip_counterexample :
    ((canonicalGame 3).towers 1).getTopDisk = none
    ∧ executeAutoMove (canonicalGame 3) 1 0 = (canonicalGame 3, [])
    ∧ (executeAutoMove (canonicalGame 3) 1 0).2 = [] :=
  ⟨rfl, rfl, rfl⟩

/-- C5 as amended: a scheduled playback move that the validator would reject
(source tower empty, or its top disk not placeable on the target) is silently
skipped: `executeAutoMove` leaves the session state unchanged and emits no
notification and no error report whatsoever — the source has no
`InvariantViolation` path. -/
theorem c5_rejected_playback_move_silently_skipped :
    ∀ (g : Game) (fromTowerIndex toTowerIndex : Fin 3),
      ((g.towers fromTowerIndex).getTopDisk = none
        ∨ ∃ d, (g.towers fromTowerIndex).getTopDisk = some d
            ∧ (g.towers toTowerIndex).canAddDisk d = false) →
      executeAutoMove g fromTowerIndex toTowerIndex = (g, []) := by
  intro g f t h
  rcases h with h | ⟨d, hd, hc⟩
  · exact executeAutoMove_skip_empty h
  · exact executeAutoMove_skip_blocked hd hc

/-- Witness for C5 as amended, at a concrete rejected move. -/
theorem c5_rejected_playback_move_silently_skipped_witness :
    executeAutoMove (canonicalGame 4) 1 2 = (canonicalGame 4, []) :=
  c5_rejected_playback_move_silently_skipped (canonicalGame 4) 1 2 (Or.inl rfl)

/-- C1: after every accepted mutation of the model — the initial disk layout
of every game mode, every accepted manual drop, and every applied
auto-playback move — every tower's disk sequence is strictly decreasing in
size from bottom to top.  (Rejected drops and skipped auto moves leave the
towers untouched, so the theorem states preservation across all three
mutation paths plus validity of every initial layout.) -/
theorem c1_descending_invariant :
    (∀ (numDisks : Nat) (mode : GameMode) (choices : Nat → Fin 3 × Nat) (fuel : Nat)
        (i : Fin 3), Descending (createDisks numDisks mode choices fuel i))
    ∧ (∀ g : Game, (∀ i, Descending (g.towers i)) →
        ∀ i, Descending ((dropDisk g).towers i))
    ∧ (∀ (g : Game) (fromTowerIndex toTowerIndex : Fin 3),
        (∀ i, Descending (g.towers i)) →
        ∀ i, Descending ((executeAutoMove g fromTowerIndex toTowerIndex).1.towers i)) := by
  refine ⟨fun n mode choices fuel i => createDisks_descending n mode choices fuel i, ?_, ?_⟩
  · intro g h i
    cases hdrag : g.draggingDisk with
    | none => rw [dropDisk_no_drag hdrag]; exact h i
    | some dragging =>
      cases hres : findClosestTower g dragging.meshPos with
      | none => rw [dropDisk_none_target hdrag hres]; exact h i
      | some closestTower =>
        rw [dropDisk_some_target hdrag hres]
        by_cases hcond : closestTower ≠ dragging.currentTower ∧
            (g.towers closestTower).canAddDisk dragging.disk = true
        · rw [if_pos hcond, checkWinCondition_towers]
          exact update_move_descending h hcond.1 hcond.2 i
        · rw [if_neg hcond]
          exact h i
  · intro g f t h i
    cases hd : (g.towers f).getTopDisk with
    | none => rw [executeAutoMove_skip_empty hd]; exact h i
    | some d =>
      cases hc : (g.towers t).canAddDisk d with
      | false => rw [executeAutoMove_skip_blocked hd hc]; exact h i
      | true =>
        have hft : f ≠ t := by
          intro he
          rw [← he, canAddDisk_top_self hd] at hc
          exact Bool.false_ne_true hc
        rw [executeAutoMove_applied_eq hd hc]
        exact update_move_descending h (Ne.symm hft) hc i

/-- Witness for C1: a concrete puzzle-mode layout, a drop on a fresh 3-disk
game and an applied auto move, each evaluated at tower indices. -/
theorem c1_descending_invariant_witness :
    Descending (createDisks 3 GameMode.puzzle (fun _ => (0, 0)) 3 0)
    ∧ Descending ((dropDisk (canonicalGame 3)).towers 0)
    ∧ Descending ((executeAutoMove (canonicalGame 3) 0 2).1.towers 2) := by
  have hcanon : ∀ i, Descending ((canonicalGame 3).towers i) := by
    intro i
    fin_cases i
    · exact descending_sessionDisks 3
    · exact List.chain'_nil
    · exact List.chain'_nil
  exact ⟨c1_descending_invariant.1 3 GameMode.puzzle (fun _ => (0, 0)) 3 0,
    c1_descending_invariant.2.1 (canonicalGame 3) hcanon 0,
    c1_descending_invariant.2.2 (canonicalGame 3) 0 2 hcanon 2⟩

/-- C9: when a drag release resolves to no tower within the proximity
threshold, to the origin tower, or to a tower that cannot legally take the
disk, the model is unchanged: every tower's disk sequence is exactly as
before, the move counter keeps its value, and the dragged disk is still a
member of its origin tower. -/
theorem c9_invalid_drop_rollback :
    ∀ (g : Game) (dragging : DragInfo),
      g.draggingDisk = some dragging →
      (findClosestTower g dragging.meshPos = none
        ∨ findClosestTower g dragging.meshPos = some dragging.currentTower
        ∨ ∃ ct, findClosestTower g dragging.meshPos = some ct
            ∧ (g.towers ct).canAddDisk dragging.disk = false) →
      (dropDisk g).towers = g.towers
      ∧ (dropDisk g).moves = g.moves
      ∧ (dragging.disk ∈ (g.towers dragging.currentTower).disks →
          dragging.disk ∈ ((dropDisk g).towers dragging.currentTower).disks) := by
  intro g dragging hdrag hres
  have htow : (dropDisk g).towers = g.towers ∧ (dropDisk g).moves = g.moves := by
    rcases hres with h | h | ⟨ct, hct, hc⟩
    · rw [dropDisk_none_target hdrag h]
      exact ⟨rfl, rfl⟩
    · rw [dropDisk_some_target hdrag h, if_neg (fun hcond => hcond.1 rfl)]
      exact ⟨rfl, rfl⟩
    · rw [dropDisk_some_target hdrag hct,
        if_neg (fun hcond => Bool.false_ne_true (hc.symm.trans hcond.2))]
      exact ⟨rfl, rfl⟩
  refine ⟨htow.1, htow.2, fun hm => ?_⟩
  rw [htow.1]
  exact hm

/-- The drag state of the C9 witness: the small disk held directly above its
own tower 0, so the release resolves to the origin tower. -/
def dragOnOrigin : DragInfo :=
  { disk := ⟨1⟩, currentTower := 0, meshPos := (-10, 2, 0) }

/-- A fresh 3-disk game mid-drag, for the C9 witness. -/
def dragGame : Game :=
  { canonicalGame 3 with draggingDisk := some dragOnOrigin }

/-- Witness for C9: releasing over the origin tower rolls back. -/
theorem c9_invalid_drop_rollback_witness :
    (dropDisk dragGame).towers = dragGame.towers
    ∧ (dropDisk dragGame).moves = dragGame.moves
    ∧ (dragOnOrigin.disk ∈ (dragGame.towers dragOnOrigin.currentTower).disks →
        dragOnOrigin.disk ∈ ((dropDisk dragGame).towers dragOnOrigin.currentTower).disks) :=
  c9_invalid_drop_rollback dragGame dragOnOrigin rfl (Or.inr (Or.inl (by rfl)))

set_option maxRecDepth 4000 in
/-- C3: replaying the generated solution from the canonical start solves the
puzzle for every numDisks from 1 to 7; for numDisks = 3 the 7 generated moves
are (0→2, 0→1, 2→1, 0→2, 1→0, 1→2, 0→2) and leave tower 2 holding sizes
[3, 2, 1] bottom to top. -/
theorem c3_solution_replay :
    (∀ n, 1 ≤ n → n ≤ 7 →
      ((runSolution (canonicalGame n)).towers 2).isComplete n = true)
    ∧ generateHanoiSolution 3 0 2 1 []
        = [⟨0, 2⟩, ⟨0, 1⟩, ⟨2, 1⟩, ⟨0, 2⟩, ⟨1, 0⟩, ⟨1, 2⟩, ⟨0, 2⟩]
    ∧ ((runSolution (canonicalGame 3)).towers 2).disks = [⟨3⟩, ⟨2⟩, ⟨1⟩] := by
  refine ⟨?_, by decide, by decide⟩
  intro n h1 h7
  interval_cases n <;> decide

/-- Witness for C3 at numDisks = 7. -/
theorem c3_solution_replay_witness :
    ((runSolution (canonicalGame 7)).towers 2).isComplete 7 = true :=
  c3_solution_replay.1 7 (by norm_num) (by norm_num)

lemma createDisks_nonpuzzle (numDisks : Nat) (mode : GameMode)
    (choices : Nat → Fin 3 × Nat) (fuel : Nat) (h : mode ≠ GameMode.puzzle) :
    createDisks numDisks mode choices fuel = canonicalLayout numDisks := by
  funext i
  cases mode
  case puzzle => exact absurd rfl h
  all_goals {
    show Function.update emptyTowers 0 ((sessionDisks numDisks).foldl Tower.addDisk ⟨[]⟩) i
      = canonicalLayout numDisks i
    unfold canonicalLayout
    by_cases hi : i = 0
    · rw [hi, Function.update_same, if_pos rfl]
      exact tower_eq_of_disks (by rw [foldl_addDisk_disks]; rfl)
    · rw [Function.update_noteq hi, if_neg hi]
      rfl
  }

/-- The random draws of the C6 counterexample's re-scramble: disk 3 goes to
tower 1, then disks 2 and 1 to tower 0. -/
def scrambleChoices : Nat → Fin 3 × Nat :=
  fun k => if k = 0 then (1, 0) else (0, 0)

/-- A 3-disk puzzle-mode session, for the C6 counterexample. -/
def puzzleGame3 : Game :=
  { canonicalGame 3 with gameMode := GameMode.puzzle }

/-- C6 counterexample: in puzzle mode `resetForSolution` does not produce the
canonical layout — it reruns the random puzzle distribution.  With the
concrete draws of `scrambleChoices` the distribution finishes (all disks
placed after 3 iterations, so the source's loop exits there), yet tower 1
holds disk 3 where the canonical layout has tower 1 empty. -/
theorem c6_puzzle_reset_counterexample :
    puzzleGame3.gameMode = GameMode.puzzle
    ∧ (runPuzzle scrambleChoices 3 ⟨sessionDisks 3, emptyTowers⟩).availableDisks = []
    ∧ ((resetForSolution puzzleGame3 scrambleChoices 3).towers 1).disks = [⟨3⟩]
    ∧ (canonicalLayout 3 1).disks = [] := by
  refine ⟨rfl, by decide, by decide, rfl⟩

/-- C6 as amended: `resetForSolution` (the reset `showSolution` performs
before generating) resets the session to the canonical all-on-tower-0 layout
with zeroed counters in the normal, contrarreloj and desafío modes; in puzzle
mode it instead reruns the random pre-scrambled distribution, so the solution
is replayed from a layout that is in general not canonical. -/
theorem c6_reset_canonical :
    ∀ (g : Game) (choices : Nat → Fin 3 × Nat) (fuel : Nat),
      g.gameMode ≠ GameMode.puzzle →
      (resetForSolution g choices fuel).towers = canonicalLayout g.numDisks
      ∧ (resetForSolution g choices fuel).moves = 0
      ∧ (resetForSolution g choices fuel).isGameOver = false := by
  intro g choices fuel h
  exact ⟨createDisks_nonpuzzle g.numDisks g.gameMode choices fuel h, rfl, rfl⟩

/-- Witness for C6 as amended, on a normal-mode 3-disk session. -/
theorem c6_reset_canonical_witness :
    (resetForSolution (canonicalGame 3) scrambleChoices 0).towers = canonicalLayout 3
    ∧ (resetForSolution (canonicalGame 3) scrambleChoices 0).moves = 0
    ∧ (resetForSolution (canonicalGame 3) scrambleChoices 0).isGameOver = false :=
  c6_reset_canonical (canonicalGame 3) scrambleChoices 0 (by decide)

/-- The start state of the deadlocked puzzle distribution: 4 disks, towers
empty. -/
def deadlockStart : PuzzleState := ⟨sessionDisks 4, emptyTowers⟩

/-- Random draws that deadlock `createPuzzleConfiguration`: place disk 1 on
tower 0, disk 2 on tower 1 and disk 3 on tower 2; disk 4 then fits on no
tower (none is empty and every top is smaller), so no further draw can ever
place it. -/
def deadlockChoices : Nat → Fin 3 × Nat :=
  fun k =>
    if k = 0 then (0, 3) else if k = 1 then (1, 2) else if k = 2 then (2, 1) else (0, 0)

/-- C4 (code bug): the `createPuzzleConfiguration` loop does not always
terminate.  Under the draws of `deadlockChoices` (numDisks = 4) the set of
not-yet-placed disks never empties, for any number of iterations: after three
placements the state is a fixed point of every possible iteration, so the
source's `while (availableDisks.length > 0)` loop spins forever. -/
theorem c4_puzzle_generation_deadlock :
    ∀ k : Nat, (runPuzzle deadlockChoices k deadlockStart).availableDisks.isEmpty = false := by
  have hfix : ∀ c, puzzleStep (runPuzzle deadlockChoices 3 deadlockStart) c
      = runPuzzle deadlockChoices 3 deadlockStart := by
    rintro ⟨tc, dc⟩
    fin_cases tc <;> rfl
  have hstable : ∀ k, runPuzzle deadlockChoices (k + 3) deadlockStart
      = runPuzzle deadlockChoices 3 deadlockStart := by
    intro k
    induction k with
    | zero => rfl
    | succ m ih =>
      show puzzleStep (runPuzzle deadlockChoices (m + 3) deadlockStart)
          (deadlockChoices (m + 3)) = _
      rw [ih, hfix]
  intro k
  rcases k with _ | _ | _ | m
  · rfl
  · rfl
  · rfl
  · show (runPuzzle deadlockChoices (m + 3) deadlockStart).availableDisks.isEmpty = false
    rw [hstable m]
    rfl
